import Mathlib

/-!
Shallow embedding of the quiz web application (`main.py`).

The application is a small FastAPI service: it loads multiple-choice
questions from a CSV file, starts timed quiz sessions kept in an in-memory
dictionary, grades submitted answers, stores results in a SQLite table and
exports them to a spreadsheet.  The embedding below translates each handler
and helper into a pure Lean function:

* CSV rows become `Row` values (each cell is an `Option String`, mirroring
  `row.get(column)` of `csv.DictReader`);
* the in-memory session dictionary `SESSIONS` becomes a function
  `String → Option Session` with explicit insert (`setSession`) and
  `dict.pop` (`popSession`);
* the SQLite results table becomes a list of `ResultRecord` in insertion
  order (`SELECT ... ORDER BY id DESC` reads it reversed);
* `random.sample(all_q, k)` is modelled by the list of chosen indices
  (`sample`), with the properties of the random choice — distinct in-range
  indices, exactly `k` of them — appearing as hypotheses of the theorems;
* wall-clock calls (`datetime.now`) and `secrets.token_urlsafe` become
  explicit parameters;
* raised exceptions become explicit error values (`Except` / `Response`).
-/

namespace QuizWeb

/-- Python's `str.strip()` with no argument: drop leading and trailing
whitespace.  Defined by structural recursion on the character list so that
it reduces in the kernel (core `String.trim` is well-founded recursion and
does not). -/
def pyStrip (s : String) : String :=
  ⟨((s.data.dropWhile Char.isWhitespace).reverse.dropWhile
      Char.isWhitespace).reverse⟩

/-- Python's `str.upper()` on the alphabet the application cares about
(ASCII letters; the correctness markers are compared against `A`–`D`). -/
def pyUpper (s : String) : String :=
  ⟨s.data.map Char.toUpper⟩

/-- The normalisation `(x or "").strip().upper()` applied to markers and
submitted answers. -/
def normalize (s : String) : String :=
  pyUpper (pyStrip s)

/-- One loaded question, as built by `load_questions_from_csv`:
trimmed text, four trimmed options and the normalised correct label. -/
structure Question where
  text : String
  A : String
  B : String
  C : String
  D : String
  prav_vid : String
  deriving Repr, DecidableEq

instance : Inhabited Question := ⟨⟨"", "", "", "", "", ""⟩⟩

/-- One CSV data row as produced by `csv.DictReader`: each cell of the
required columns may be missing (`none` models both an absent key and a
`None` cell, which the source coalesces to `""` via `or ""`). -/
structure Row where
  question : Option String
  A : Option String
  B : Option String
  C : Option String
  D : Option String
  prav_vid : Option String
  deriving Repr, DecidableEq

/-- The admissible correctness markers, `{"A", "B", "C", "D"}` in the source. -/
def validLabels : List String := ["A", "B", "C", "D"]

/-- Column set required of the CSV file (`required` in the source). -/
def requiredCols : List String := ["Question", "A", "B", "C", "D", "Prav_vid"]

/-- Errors raised by `load_questions_from_csv` (`ValueError`s in the source;
the `FileNotFoundError` for a missing file is an environment condition
outside the embedding, which starts from the parsed file content). -/
inductive LoadError where
  | missingColumns (present : List String)
  | insufficient (actual : Nat) (needed : Nat)
  deriving Repr, DecidableEq

/-- The per-row body of the loading loop: returns the question appended for
this row, or `none` when the row is skipped (`continue`, or the final
non-empty check failing). -/
def parseRow (r : Row) : Option Question :=
  let pv := normalize (r.prav_vid.getD "")
  if pv ∈ validLabels then
    let q : Question :=
      { text := pyStrip (r.question.getD "")
        A := pyStrip (r.A.getD "")
        B := pyStrip (r.B.getD "")
        C := pyStrip (r.C.getD "")
        D := pyStrip (r.D.getD "")
        prav_vid := pv }
    if q.text ≠ "" ∧ q.A ≠ "" ∧ q.B ≠ "" ∧ q.C ≠ "" ∧ q.D ≠ "" then some q
    else none
  else none

/-- `load_questions_from_csv`, starting from the parsed CSV content
(header `fieldnames` and data `rows`); `qpt` is the configured
`QUESTIONS_PER_TEST`. -/
def load_questions_from_csv (fieldnames : List String) (rows : List Row)
    (qpt : Nat) : Except LoadError (List Question) :=
  if requiredCols.all (fun c => fieldnames.contains c) then
    let questions := rows.filterMap parseRow
    if questions.length < qpt then
      Except.error (LoadError.insufficient questions.length qpt)
    else
      Except.ok questions
  else
    Except.error (LoadError.missingColumns fieldnames)

/-- One row of the `results` table, minus the auto-increment id (row order
in the list plays the role of the id): `ts` is the insertion timestamp. -/
structure ResultRecord where
  ts : Int
  surname : String
  name : String
  grp : String
  score : Nat
  total : Nat
  deriving Repr, DecidableEq

/-- `db_insert_result`: append one row to the `results` table; `now`
models `datetime.now()`. -/
def db_insert_result (db : List ResultRecord) (now : Int)
    (surname name grp : String) (score total : Nat) : List ResultRecord :=
  db ++ [⟨now, surname, name, grp, score, total⟩]

/-- Header row written by `export_results_to_xlsx`. -/
def headerRow : List String :=
  ["Timestamp", "Прізвище", "Ім\x27я", "Група", "Бали", "Всього"]

/-- Spreadsheet cells of one result row. -/
def resultRow (r : ResultRecord) : List String :=
  [toString r.ts, r.surname, r.name, r.grp, toString r.score, toString r.total]

/-- `export_results_to_xlsx`: the worksheet contents — the fixed header,
then all stored rows ordered by `id DESC`, i.e. reverse insertion order. -/
def export_results_to_xlsx (db : List ResultRecord) : List (List String) :=
  headerRow :: (db.reverse.map resultRow)

/-- One entry of the in-memory `SESSIONS` dictionary. -/
structure Session where
  surname : String
  name : String
  grp : String
  questions : List Question
  started : Int
  deriving Repr, DecidableEq

/-- The `SESSIONS` dictionary, as a lookup function. -/
def Registry : Type := String → Option Session

/-- `SESSIONS[session_id] = sess`. -/
def setSession (reg : Registry) (sessionId : String) (sess : Session) : Registry :=
  fun k => if k = sessionId then some sess else reg k

/-- `SESSIONS.pop(session_id, None)`: remove the key if present; a no-op
on an absent key. -/
def popSession (reg : Registry) (sessionId : String) : Registry :=
  fun k => if k = sessionId then none else reg k

/-- The whole mutable state of the process: the session dictionary and the
results table. -/
structure AppState where
  sessions : Registry
  results : List ResultRecord

/-- The responses the modelled handlers can produce. -/
inductive Response where
  | redirectHome
  | redirectQuiz (sessionId : String)
  | quizPage (sessionId surname name grp : String)
      (questions : List Question) (remaining : Int)
  | resultPage (score total : Nat)
  | serverError (e : LoadError)
  | forbidden
  | fileDownload (contents : List (List String))
  deriving Repr, DecidableEq

/-- `random.sample(l, k)` modelled by the chosen positions: the randomness
is externalised into `idxs`, the list of indices the sampler picked.  The
theorems assume what `random.sample` guarantees of them: distinct, in
range, exactly `k` many. -/
def sample (l : List Question) (idxs : List Nat) : List Question :=
  idxs.filterMap (fun i => l[i]?)

/-- The `POST /start` handler.  The CSV content, the sampled index list,
the fresh token and the clock are explicit inputs. -/
def start (st : AppState) (qpt : Nat) (fieldnames : List String)
    (rows : List Row) (idxs : List Nat) (sessionId : String) (now : Int)
    (surname name grp : String) : Response × AppState :=
  let surname := pyStrip surname
  let name := pyStrip name
  let grp := pyStrip grp
  if surname = "" ∨ name = "" ∨ grp = "" then
    (Response.redirectHome, st)
  else
    match load_questions_from_csv fieldnames rows qpt with
    | Except.error e => (Response.serverError e, st)
    | Except.ok all_q =>
        let picked := sample all_q idxs
        let sessions := setSession st.sessions sessionId
          ⟨surname, name, grp, picked, now⟩
        (Response.redirectQuiz sessionId, ⟨sessions, st.results⟩)

/-- The `GET /quiz/{session_id}` handler (`render_attempt`). -/
def quiz (st : AppState) (duration : Int) (sessionId : String) (now : Int) :
    Response :=
  match st.sessions sessionId with
  | none => Response.redirectHome
  | some sess =>
      let elapsed := now - sess.started
      let remaining := max 0 (duration - elapsed)
      Response.quizPage sessionId sess.surname sess.name sess.grp
        sess.questions remaining

/-- The scoring loop of `submit`, carrying the running index `i`:
`a = (answers[i] if i < len(answers) else "").strip().upper()`, score a
point when `a == q["Prav_vid"]`. -/
def gradeFrom (answers : List String) : Nat → List Question → Nat
  | _, [] => 0
  | i, q :: qs =>
      (if normalize (answers.getD i "") = q.prav_vid then 1 else 0)
        + gradeFrom answers (i + 1) qs

/-- The score `submit` computes for a question list and raw answers. -/
def grade (questions : List Question) (answers : List String) : Nat :=
  gradeFrom answers 0 questions

/-- The `POST /submit/{session_id}` handler (`grade_and_finish`): grade,
persist the result row, drop the session. -/
def submit (st : AppState) (sessionId : String) (answers : List String)
    (now : Int) : Response × AppState :=
  match st.sessions sessionId with
  | none => (Response.redirectHome, st)
  | some sess =>
      let score := grade sess.questions answers
      let results := db_insert_result st.results now sess.surname sess.name
        sess.grp score sess.questions.length
      let sessions := popSession st.sessions sessionId
      (Response.resultPage score sess.questions.length, ⟨sessions, results⟩)

/-- The `GET /admin/export` handler: shared-secret check, then export. -/
def admin_export (adminKey : String) (key : String)
    (db : List ResultRecord) : Response :=
  if key ≠ adminKey then Response.forbidden
  else Response.fileDownload (export_results_to_xlsx db)

/-- The score as the specification words it, for comparison with `grade`:
the number of indices `i` (in assigned order) at which the `i`-th submitted
answer, trimmed and upper-cased, equals the `i`-th question's correct
label, an index beyond the end of the answers list contributing the empty
string. -/
def scoreSpec (qs : List Question) (answers : List String) : Nat :=
  (List.range qs.length).countP
    (fun i => decide (normalize (answers.getD i "") = (qs.getD i default).prav_vid))

/-- The row-skipping condition as the specification words it, for
comparison with `parseRow`: a row is skipped exactly when its correctness
marker after trimming and upper-casing is not one of A/B/C/D, or its
question text or one of the four options is empty after trimming. -/
def specSkipsRow (r : Row) : Bool :=
  !(validLabels.contains (normalize (r.prav_vid.getD "")))
    || (pyStrip (r.question.getD "") == "")
    || (pyStrip (r.A.getD "") == "")
    || (pyStrip (r.B.getD "") == "")
    || (pyStrip (r.C.getD "") == "")
    || (pyStrip (r.D.getD "") == "")

/-- Concrete fixtures used by the witness theorems. -/
def q1 : Question := ⟨"2+2?", "3", "4", "5", "6", "B"⟩

def q2 : Question := ⟨"Capital?", "Kyiv", "Lviv", "Odesa", "Dnipro", "A"⟩

def q3 : Question := ⟨"Colour?", "red", "green", "blue", "white", "C"⟩

def sess1 : Session := ⟨"Shevchenko", "Taras", "G1", [q1, q2], 0⟩

def reg1 : Registry := fun _ => some sess1

def st1 : AppState := ⟨reg1, []⟩

def emptyReg : Registry := fun _ => none

def st0 : AppState := ⟨emptyReg, []⟩

def row1 : Row := ⟨some "2+2?", some "3", some "4", some "5", some "6", some " b "⟩

def row2 : Row := ⟨some "Capital?", some "Kyiv", some "Lviv", some "Odesa", some "Dnipro", some "A"⟩

def row3 : Row := ⟨some "Colour?", some "red", some "green", some "blue", some "white", some "c"⟩

def rowBad : Row := ⟨some "Broken?", some "", some "y", some "z", some "w", some "A"⟩

/-! ## Helper lemmas about the scoring loop -/

theorem gradeFrom_eq_countP (answers : List String) (i : Nat)
    (qs : List Question) :
    gradeFrom answers i qs
      = (List.range qs.length).countP
          (fun j => decide (normalize (answers.getD (i + j) "")
            = (qs.getD j default).prav_vid)) := by
  induction qs generalizing i with
  | nil => simp [gradeFrom]
  | cons q qs ih =>
      rw [gradeFrom, ih (i + 1), List.length_cons, List.range_succ_eq_map,
        List.countP_cons, List.countP_map]
      rw [Nat.add_comm]
      congr 1
      · apply List.countP_congr
        intro j _
        simp only [Function.comp_apply, Nat.succ_eq_add_one,
          List.getD_cons_succ, decide_eq_decide]
        have h : i + 1 + j = i + (j + 1) := by omega
        rw [h]
      · simp only [List.getD_cons_zero, Nat.add_zero, decide_eq_true_eq]

theorem grade_eq_scoreSpec (qs : List Question) (answers : List String) :
    grade qs answers = scoreSpec qs answers := by
  rw [grade, scoreSpec, gradeFrom_eq_countP]
  apply List.countP_congr
  intro j _
  simp only [decide_eq_decide, Nat.zero_add]

theorem grade_le_length (qs : List Question) (answers : List String) :
    grade qs answers ≤ qs.length := by
  rw [grade_eq_scoreSpec, scoreSpec]
  calc (List.range qs.length).countP _ ≤ (List.range qs.length).length :=
        List.countP_le_length _
    _ = qs.length := List.length_range qs.length

theorem normalize_label {s : String} (h : s ∈ validLabels) :
    normalize s = s := by
  simp only [validLabels, List.mem_cons, List.not_mem_nil, or_false] at h
  rcases h with rfl | rfl | rfl | rfl <;> rfl

theorem label_ne_empty {s : String} (h : s ∈ validLabels) : s ≠ "" := by
  simp only [validLabels, List.mem_cons, List.not_mem_nil, or_false] at h
  rcases h with rfl | rfl | rfl | rfl <;> decide

theorem getD_mem_of_lt {l : List Question} {i : Nat} (h : i < l.length) :
    l.getD i default ∈ l := by
  rw [List.getD_eq_getElem l default h]
  exact List.getElem_mem h

theorem grade_exact_labels (qs : List Question)
    (h : ∀ q ∈ qs, q.prav_vid ∈ validLabels) :
    grade qs (qs.map Question.prav_vid) = qs.length := by
  rw [grade_eq_scoreSpec, scoreSpec]
  have hlen : (List.range qs.length).length = qs.length :=
    List.length_range qs.length
  conv_rhs => rw [← hlen]
  rw [List.countP_eq_length]
  intro i hi
  rw [List.mem_range] at hi
  have hd : (qs.map Question.prav_vid).getD i "" = (qs.getD i default).prav_vid := by
    have : (default : Question).prav_vid = "" := rfl
    rw [← this, List.getD_map]
  have hq : qs.getD i default ∈ qs := getD_mem_of_lt hi
  simp only [hd, decide_eq_true_eq]
  exact congrArg (fun s => s) (normalize_label (h _ hq))

theorem grade_eq_zero_of_all_wrong (qs : List Question) (answers : List String)
    (h : ∀ i < qs.length,
      normalize (answers.getD i "") ≠ (qs.getD i default).prav_vid) :
    grade qs answers = 0 := by
  rw [grade_eq_scoreSpec, scoreSpec, List.countP_eq_zero]
  intro i hi
  rw [List.mem_range] at hi
  simp only [decide_eq_true_eq]
  exact h i hi

theorem getD_replicate_empty (k i : Nat) :
    (List.replicate k "").getD i "" = "" := by
  induction k generalizing i with
  | zero => rfl
  | succ k ih =>
      cases i with
      | zero => rfl
      | succ i => exact ih i

theorem grade_all_empty (qs : List Question) (k : Nat)
    (h : ∀ q ∈ qs, q.prav_vid ∈ validLabels) :
    grade qs (List.replicate k "") = 0 := by
  apply grade_eq_zero_of_all_wrong
  intro i hi
  rw [getD_replicate_empty]
  intro hc
  exact label_ne_empty (h _ (getD_mem_of_lt hi)) hc.symm

theorem grade_nil_answers (qs : List Question)
    (h : ∀ q ∈ qs, q.prav_vid ∈ validLabels) :
    grade qs [] = 0 := by
  have := grade_all_empty qs 0 h
  simpa using this

theorem grade_take (qs : List Question) (answers : List String) :
    grade qs (answers.take qs.length) = grade qs answers := by
  rw [grade_eq_scoreSpec, grade_eq_scoreSpec, scoreSpec, scoreSpec]
  apply List.countP_congr
  intro i hi
  rw [List.mem_range] at hi
  have : (answers.take qs.length).getD i "" = answers.getD i "" := by
    rw [List.getD_eq_getElem?_getD, List.getD_eq_getElem?_getD,
      List.getElem?_take_of_lt hi]
  rw [this]

/-! ## Helper lemmas about sampling -/

theorem sample_length (l : List Question) (idxs : List Nat)
    (h : ∀ i ∈ idxs, i < l.length) :
    (sample l idxs).length = idxs.length := by
  induction idxs with
  | nil => rfl
  | cons i idxs ih =>
      have hi : i < l.length := h i (List.mem_cons_self i idxs)
      have ih' := ih (fun j hj => h j (List.mem_cons_of_mem i hj))
      simp only [sample, List.filterMap_cons, List.getElem?_eq_getElem hi] at ih' ⊢
      simp only [List.length_cons, ih']

theorem sample_subset (l : List Question) (idxs : List Nat) :
    ∀ q ∈ sample l idxs, q ∈ l := by
  intro q hq
  rw [sample, List.mem_filterMap] at hq
  obtain ⟨i, _, hget⟩ := hq
  exact List.getElem?_mem hget

theorem sample_nodup (l : List Question) (idxs : List Nat) (hl : l.Nodup)
    (hi : idxs.Nodup) (hb : ∀ i ∈ idxs, i < l.length) :
    (sample l idxs).Nodup := by
  induction idxs with
  | nil => exact List.nodup_nil
  | cons i idxs ih =>
      obtain ⟨hnotmem, hnd⟩ := List.nodup_cons.mp hi
      have hib : i < l.length := hb i (List.mem_cons_self i idxs)
      have hrest : ∀ j ∈ idxs, j < l.length :=
        fun j hj => hb j (List.mem_cons_of_mem i hj)
      simp only [sample, List.filterMap_cons, List.getElem?_eq_getElem hib]
      apply List.nodup_cons.mpr
      refine ⟨?_, ih hnd hrest⟩
      intro hmem
      obtain ⟨j, hj, hget⟩ := List.mem_filterMap.mp hmem
      have hjb : j < l.length := hrest j hj
      rw [List.getElem?_eq_getElem hjb] at hget
      have heq : l[j] = l[i] := Option.some.inj hget
      have : j = i := (List.Nodup.getElem_inj_iff hl).mp heq
      exact hnotmem (this ▸ hj)

/-! ## Helper lemmas about loading -/

theorem parseRow_eq_none_iff (r : Row) :
    parseRow r = none ↔ specSkipsRow r = true := by
  simp only [parseRow, specSkipsRow, List.contains, Bool.or_eq_true,
    Bool.not_eq_true', List.elem_eq_mem, decide_eq_false_iff_not,
    beq_iff_eq]
  by_cases h1 : normalize (r.prav_vid.getD "") ∈ validLabels
  · rw [if_pos h1]
    by_cases h2 : pyStrip (r.question.getD "") ≠ "" ∧ pyStrip (r.A.getD "") ≠ ""
        ∧ pyStrip (r.B.getD "") ≠ "" ∧ pyStrip (r.C.getD "") ≠ ""
        ∧ pyStrip (r.D.getD "") ≠ ""
    · rw [if_pos h2]
      simp only [reduceCtorEq, false_iff]
      tauto
    · rw [if_neg h2]
      simp only [true_iff]
      tauto
  · rw [if_neg h1]
    simp only [true_iff]
    tauto

theorem parseRow_some_labels {r : Row} {q : Question}
    (h : parseRow r = some q) : q.prav_vid ∈ validLabels := by
  simp only [parseRow] at h
  split_ifs at h with h1 h2
  exact Option.some.inj h ▸ h1

theorem load_ok_iff (fieldnames : List String) (rows : List Row) (qpt : Nat)
    (hcols : requiredCols.all (fun c => fieldnames.contains c) = true) :
    ∀ l, load_questions_from_csv fieldnames rows qpt = Except.ok l
      ↔ (l = rows.filterMap parseRow ∧ qpt ≤ (rows.filterMap parseRow).length) := by
  intro l
  rw [load_questions_from_csv, if_pos hcols]
  by_cases h : (rows.filterMap parseRow).length < qpt
  · rw [if_pos h]
    simp only [reduceCtorEq, false_iff]
    intro hc
    omega
  · rw [if_neg h]
    constructor
    · intro he
      exact ⟨(Except.ok.inj he).symm, by omega⟩
    · intro ⟨hl, _⟩
      rw [hl]

theorem load_error_insufficient (fieldnames : List String) (rows : List Row)
    (qpt : Nat)
    (hcols : requiredCols.all (fun c => fieldnames.contains c) = true)
    (hshort : (rows.filterMap parseRow).length < qpt) :
    load_questions_from_csv fieldnames rows qpt
      = Except.error (LoadError.insufficient (rows.filterMap parseRow).length qpt) := by
  rw [load_questions_from_csv, if_pos hcols, if_pos hshort]

theorem load_ok_labels {fieldnames : List String} {rows : List Row}
    {qpt : Nat} {l : List Question}
    (h : load_questions_from_csv fieldnames rows qpt = Except.ok l) :
    ∀ q ∈ l, q.prav_vid ∈ validLabels := by
  intro q hq
  by_cases h1 : requiredCols.all (fun c => fieldnames.contains c) = true
  · have hl := ((load_ok_iff fieldnames rows qpt h1 l).mp h).1
    rw [hl] at hq
    obtain ⟨r, _, hr⟩ := List.mem_filterMap.mp hq
    exact parseRow_some_labels hr
  · rw [load_questions_from_csv, if_neg h1] at h
    exact absurd h (by simp)

/-! ## Helper lemmas about the registry and the handlers -/

theorem setSession_self (reg : Registry) (sessionId : String) (sess : Session) :
    setSession reg sessionId sess sessionId = some sess := by
  simp [setSession]

theorem popSession_self (reg : Registry) (sessionId : String) :
    popSession reg sessionId sessionId = none := by
  simp [popSession]

theorem popSession_absent (reg : Registry) (sessionId : String)
    (h : reg sessionId = none) : popSession reg sessionId = reg := by
  funext k
  by_cases hk : k = sessionId
  · subst hk
    simp [popSession, h]
  · simp [popSession, hk]

theorem submit_found {st : AppState} {sessionId : String} {sess : Session}
    (h : st.sessions sessionId = some sess) (answers : List String)
    (now : Int) :
    submit st sessionId answers now
      = (Response.resultPage (grade sess.questions answers)
           sess.questions.length,
         ⟨popSession st.sessions sessionId,
          db_insert_result st.results now sess.surname sess.name sess.grp
            (grade sess.questions answers) sess.questions.length⟩) := by
  rw [submit, h]

theorem submit_absent {st : AppState} {sessionId : String}
    (h : st.sessions sessionId = none) (answers : List String) (now : Int) :
    submit st sessionId answers now = (Response.redirectHome, st) := by
  rw [submit, h]

theorem quiz_absent {st : AppState} {sessionId : String}
    (h : st.sessions sessionId = none) (duration now : Int) :
    quiz st duration sessionId now = Response.redirectHome := by
  rw [quiz, h]

theorem start_empty_field {surname name grp : String}
    (h : pyStrip surname = "" ∨ pyStrip name = "" ∨ pyStrip grp = "")
    (st : AppState) (qpt : Nat) (fieldnames : List String) (rows : List Row)
    (idxs : List Nat) (sessionId : String) (now : Int) :
    start st qpt fieldnames rows idxs sessionId now surname name grp
      = (Response.redirectHome, st) := by
  simp only [start]
  rw [if_pos h]

theorem start_ok {fieldnames : List String} {rows : List Row} {qpt : Nat}
    {bank : List Question}
    (hload : load_questions_from_csv fieldnames rows qpt = Except.ok bank)
    {surname name grp : String} (hs : pyStrip surname ≠ "")
    (hn : pyStrip name ≠ "") (hg : pyStrip grp ≠ "")
    (st : AppState) (idxs : List Nat) (sessionId : String) (now : Int) :
    start st qpt fieldnames rows idxs sessionId now surname name grp
      = (Response.redirectQuiz sessionId,
         ⟨setSession st.sessions sessionId
            ⟨pyStrip surname, pyStrip name, pyStrip grp, sample bank idxs, now⟩,
          st.results⟩) := by
  simp only [start]
  rw [if_neg (by tauto), hload]

/-! ## Claim theorems -/

/-- C1: for every session with assigned question list `qs` and every
submitted answers list, `grade_and_finish` (`submit`) computes the score as
the number of indices `i` (in assigned order) at which the `i`-th
submitted answer, trimmed and upper-cased, equals the `i`-th question's
correct label, where an index beyond the end of the answers list
contributes the empty string; in particular submitting the exact correct
labels in order yields `score = total`, and all-empty or all-wrong yields
`score = 0`. -/
theorem submit_scoring_spec {st : AppState} {sessionId : String}
    {sess : Session} (answers : List String) (now : Int)
    (h : st.sessions sessionId = some sess)
    (hlabels : ∀ q ∈ sess.questions, q.prav_vid ∈ validLabels) :
    (submit st sessionId answers now).1
      = Response.resultPage (scoreSpec sess.questions answers)
          sess.questions.length
    ∧ grade sess.questions answers = scoreSpec sess.questions answers
    ∧ grade sess.questions (sess.questions.map Question.prav_vid)
        = sess.questions.length
    ∧ (∀ k, grade sess.questions (List.replicate k "") = 0)
    ∧ grade sess.questions [] = 0
    ∧ ((∀ i < sess.questions.length,
          normalize (answers.getD i "")
            ≠ (sess.questions.getD i default).prav_vid)
        → grade sess.questions answers = 0) := by
  refine ⟨?_, grade_eq_scoreSpec _ _, grade_exact_labels _ hlabels,
    fun k => grade_all_empty _ k hlabels, grade_nil_answers _ hlabels,
    grade_eq_zero_of_all_wrong _ _⟩
  rw [submit_found h answers now, ← grade_eq_scoreSpec]

/-- C1 witness: a concrete two-question session graded through `submit`. -/
theorem submit_scoring_spec_witness :
    (st1.sessions "tok" = some sess1)
    ∧ ((∀ q ∈ sess1.questions, q.prav_vid ∈ validLabels))
    ∧ ((submit st1 "tok" [" b", "x"] 7).1
        = Response.resultPage (scoreSpec sess1.questions [" b", "x"])
            sess1.questions.length
      ∧ grade sess1.questions [" b", "x"]
          = scoreSpec sess1.questions [" b", "x"]
      ∧ grade sess1.questions (sess1.questions.map Question.prav_vid)
          = sess1.questions.length
      ∧ (∀ k, grade sess1.questions (List.replicate k "") = 0)
      ∧ grade sess1.questions [] = 0
      ∧ ((∀ i < sess1.questions.length,
            normalize ([" b", "x"].getD i "")
              ≠ (sess1.questions.getD i default).prav_vid)
          → grade sess1.questions [" b", "x"] = 0)) :=
  ⟨rfl, by decide, submit_scoring_spec [" b", "x"] 7 rfl (by decide)⟩

/-- C2: `load_questions_from_csv`, on a file with the required columns,
skips exactly those rows whose correctness marker after trimming and
upper-casing is not one of A/B/C/D or whose question text or options are
empty after trimming; with fewer valid rows than `QUESTIONS_PER_TEST` it
fails with an insufficient-questions error naming the actual count versus
the required minimum, and it never returns a list shorter than
`QUESTIONS_PER_TEST`. -/
theorem load_skips_and_bounds (fieldnames : List String) (rows : List Row)
    (qpt : Nat)
    (hcols : requiredCols.all (fun c => fieldnames.contains c) = true) :
    (∀ r : Row, parseRow r = none ↔ specSkipsRow r = true)
    ∧ (∀ l, load_questions_from_csv fieldnames rows qpt = Except.ok l
        → l = rows.filterMap parseRow)
    ∧ ((rows.filterMap parseRow).length < qpt
        → load_questions_from_csv fieldnames rows qpt
            = Except.error
                (LoadError.insufficient (rows.filterMap parseRow).length qpt))
    ∧ (∀ l, load_questions_from_csv fieldnames rows qpt = Except.ok l
        → qpt ≤ l.length) := by
  refine ⟨parseRow_eq_none_iff, ?_, load_error_insufficient _ _ _ hcols, ?_⟩
  · intro l hl
    exact ((load_ok_iff fieldnames rows qpt hcols l).mp hl).1
  · intro l hl
    obtain ⟨he, hge⟩ := (load_ok_iff fieldnames rows qpt hcols l).mp hl
    rw [he]
    exact hge

/-- C2 witness: a concrete file with the required columns, one invalid row
and two valid rows, loaded with `QUESTIONS_PER_TEST = 3`. -/
theorem load_skips_and_bounds_witness :
    (requiredCols.all (fun c => requiredCols.contains c) = true)
    ∧ ((∀ r : Row, parseRow r = none ↔ specSkipsRow r = true)
      ∧ (∀ l, load_questions_from_csv requiredCols [row1, rowBad, row2] 3
            = Except.ok l
          → l = [row1, rowBad, row2].filterMap parseRow)
      ∧ (([row1, rowBad, row2].filterMap parseRow).length < 3
          → load_questions_from_csv requiredCols [row1, rowBad, row2] 3
              = Except.error
                  (LoadError.insufficient
                    ([row1, rowBad, row2].filterMap parseRow).length 3))
      ∧ (∀ l, load_questions_from_csv requiredCols [row1, rowBad, row2] 3
            = Except.ok l
          → 3 ≤ l.length)) :=
  ⟨by decide, load_skips_and_bounds requiredCols [row1, rowBad, row2] 3 (by decide)⟩

/-- C3: for every question bank successfully loaded and non-empty trimmed
identity fields, `begin_attempt` (`start`) creates a session whose
assigned question list has exactly `QUESTIONS_PER_TEST` elements, all
drawn from the loaded bank at pairwise distinct positions (sampling
without replacement), hence with no repeats within one attempt whenever
the bank has no duplicate rows. -/
theorem start_creates_full_sample {fieldnames : List String}
    {rows : List Row} {qpt : Nat} {bank : List Question}
    (hload : load_questions_from_csv fieldnames rows qpt = Except.ok bank)
    {surname name grp : String} (hs : pyStrip surname ≠ "")
    (hn : pyStrip name ≠ "") (hg : pyStrip grp ≠ "")
    (st : AppState) {idxs : List Nat} (hlen : idxs.length = qpt)
    (hnd : idxs.Nodup) (hb : ∀ i ∈ idxs, i < bank.length)
    (sessionId : String) (now : Int) :
    ∃ sess : Session,
      (start st qpt fieldnames rows idxs sessionId now
        surname name grp).2.sessions sessionId = some sess
      ∧ sess.questions.length = qpt
      ∧ (∀ q ∈ sess.questions, q ∈ bank)
      ∧ (bank.Nodup → sess.questions.Nodup)
      ∧ (∀ q ∈ sess.questions, q.prav_vid ∈ validLabels) := by
  refine ⟨⟨pyStrip surname, pyStrip name, pyStrip grp, sample bank idxs, now⟩,
    ?_, ?_, sample_subset bank idxs,
    fun hnl => sample_nodup bank idxs hnl hnd hb, ?_⟩
  · rw [start_ok hload hs hn hg st idxs sessionId now]
    exact setSession_self _ _ _
  · rw [sample_length bank idxs hb, hlen]
  · intro q hq
    exact load_ok_labels hload q (sample_subset bank idxs q hq)

/-- C3 witness: starting an attempt over a concrete three-row file with
`QUESTIONS_PER_TEST = 2` and sampled positions `[2, 0]`. -/
theorem start_creates_full_sample_witness :
    (load_questions_from_csv requiredCols [row1, row2, row3] 2
      = Except.ok [q1, q2, q3])
    ∧ (pyStrip "Ivanenko " ≠ "") ∧ (pyStrip " Olha" ≠ "") ∧ (pyStrip "G2" ≠ "")
    ∧ (([2, 0] : List Nat).length = 2) ∧ (([2, 0] : List Nat).Nodup)
    ∧ (∀ i ∈ ([2, 0] : List Nat), i < ([q1, q2, q3] : List Question).length)
    ∧ (∃ sess : Session,
        (start st0 2 requiredCols [row1, row2, row3] [2, 0] "fresh" 11
          "Ivanenko " " Olha" "G2").2.sessions "fresh" = some sess
        ∧ sess.questions.length = 2
        ∧ (∀ q ∈ sess.questions, q ∈ ([q1, q2, q3] : List Question))
        ∧ (([q1, q2, q3] : List Question).Nodup → sess.questions.Nodup)
        ∧ (∀ q ∈ sess.questions, q.prav_vid ∈ validLabels)) :=
  ⟨rfl, by decide, by decide, by decide, rfl, by decide, by decide,
    start_creates_full_sample
      (rfl : load_questions_from_csv requiredCols [row1, row2, row3] 2
        = Except.ok [q1, q2, q3])
      (by decide) (by decide) (by decide) st0
      (rfl : ([2, 0] : List Nat).length = 2) (by decide) (by decide)
      "fresh" 11⟩

/-- C4: after `grade_and_finish` completes on a found session its token is
gone from the registry, so a later `render_attempt` or second
`grade_and_finish` on the same token is treated as Unknown-Token and
redirects to the start page, the second submission changing nothing; the
removal is idempotent. -/
theorem submit_consumes_token {st : AppState} {sessionId : String}
    {sess : Session} (answers : List String) (now : Int)
    (h : st.sessions sessionId = some sess)
    {st' : AppState} (h2 : st' = (submit st sessionId answers now).2) :
    st'.sessions sessionId = none
    ∧ (∀ duration now2,
        quiz st' duration sessionId now2 = Response.redirectHome)
    ∧ (∀ answers2 now2,
        submit st' sessionId answers2 now2 = (Response.redirectHome, st'))
    ∧ popSession st'.sessions sessionId = st'.sessions := by
  have hnone : st'.sessions sessionId = none := by
    rw [h2, submit_found h answers now]
    exact popSession_self _ _
  exact ⟨hnone, fun d n2 => quiz_absent hnone d n2,
    fun a2 n2 => submit_absent hnone a2 n2,
    popSession_absent _ _ hnone⟩

/-- C4 witness: a concrete session consumed by one submission. -/
theorem submit_consumes_token_witness :
    (st1.sessions "tok" = some sess1)
    ∧ ((submit st1 "tok" ["a"] 3).2 = (submit st1 "tok" ["a"] 3).2)
    ∧ ((submit st1 "tok" ["a"] 3).2.sessions "tok" = none
      ∧ (∀ duration now2,
          quiz (submit st1 "tok" ["a"] 3).2 duration "tok" now2
            = Response.redirectHome)
      ∧ (∀ answers2 now2,
          submit (submit st1 "tok" ["a"] 3).2 "tok" answers2 now2
            = (Response.redirectHome, (submit st1 "tok" ["a"] 3).2))
      ∧ popSession (submit st1 "tok" ["a"] 3).2.sessions "tok"
          = (submit st1 "tok" ["a"] 3).2.sessions) :=
  ⟨rfl, rfl, submit_consumes_token ["a"] 3 rfl rfl⟩

/-- C5: every result row appended by the store's insert appears verbatim
(same timestamp, surname, name, group, score, total) in the next export's
output, which lists records most-recent-first: the freshly inserted row is
the first data row, followed by the earlier rows in reverse insertion
order. -/
theorem insert_then_export_roundtrip (db : List ResultRecord) (now : Int)
    (surname name grp : String) (score total : Nat) :
    export_results_to_xlsx
        (db_insert_result db now surname name grp score total)
      = headerRow :: resultRow ⟨now, surname, name, grp, score, total⟩
          :: (db.reverse.map resultRow) := by
  simp [export_results_to_xlsx, db_insert_result]

/-- C6: export succeeds only under the configured admin secret; on a
mismatching key it fails with the forbidden error, and its outcome does
not depend on the stored results at all (the database is neither read nor
modified). -/
theorem admin_export_wrong_key (adminKey key : String)
    (db : List ResultRecord) (h : key ≠ adminKey) :
    admin_export adminKey key db = Response.forbidden
    ∧ (∀ db2, admin_export adminKey key db2 = admin_export adminKey key db) := by
  constructor
  · rw [admin_export, if_pos h]
  · intro db2
    rw [admin_export, admin_export, if_pos h, if_pos h]

/-- C6 witness: a wrong key against the source's default admin secret. -/
theorem admin_export_wrong_key_witness :
    ("guess" ≠ "my-secret-key")
    ∧ (admin_export "my-secret-key" "guess"
          [⟨1, "S", "N", "G", 1, 2⟩] = Response.forbidden
      ∧ (∀ db2, admin_export "my-secret-key" "guess" db2
          = admin_export "my-secret-key" "guess" [⟨1, "S", "N", "G", 1, 2⟩])) :=
  ⟨by decide, admin_export_wrong_key "my-secret-key" "guess"
    [⟨1, "S", "N", "G", 1, 2⟩] (by decide)⟩

/-- C7: `begin_attempt` trims all three identity fields and, if any is
empty after trimming, redirects to the start page with the state (hence
the session registry) unchanged; the outcome is the same whatever the
question file contains, i.e. the file is never consulted. -/
theorem start_rejects_blank_identity (st : AppState) (qpt : Nat)
    (fieldnames : List String) (rows : List Row) (idxs : List Nat)
    (sessionId : String) (now : Int) {surname name grp : String}
    (h : pyStrip surname = "" ∨ pyStrip name = "" ∨ pyStrip grp = "") :
    start st qpt fieldnames rows idxs sessionId now surname name grp
      = (Response.redirectHome, st)
    ∧ (∀ fieldnames2 rows2,
        start st qpt fieldnames2 rows2 idxs sessionId now surname name grp
          = (Response.redirectHome, st)) :=
  ⟨start_empty_field h st qpt fieldnames rows idxs sessionId now,
    fun fieldnames2 rows2 =>
      start_empty_field h st qpt fieldnames2 rows2 idxs sessionId now⟩

/-- C7 witness: a surname of pure whitespace is rejected even over a file
that would not load. -/
theorem start_rejects_blank_identity_witness :
    (pyStrip "  " = "" ∨ pyStrip "Taras" = "" ∨ pyStrip "G1" = "")
    ∧ (start st0 10 [] [] [0] "fresh" 4 "  " "Taras" "G1"
        = (Response.redirectHome, st0)
      ∧ (∀ fieldnames2 rows2,
          start st0 10 fieldnames2 rows2 [0] "fresh" 4 "  " "Taras" "G1"
            = (Response.redirectHome, st0))) :=
  ⟨by decide, start_rejects_blank_identity st0 10 [] [] [0] "fresh" 4
    (by decide)⟩

/-- C8: every result record created by `grade_and_finish` satisfies
`0 ≤ score ≤ total`, with `total` the number of questions assigned to the
session (the configured `QUESTIONS_PER_TEST`); the score being a natural
number, `0 ≤ score` is automatic. -/
theorem submit_result_score_bounds {st : AppState} {sessionId : String}
    {sess : Session} (answers : List String) (now : Int)
    (h : st.sessions sessionId = some sess) {qpt : Nat}
    (hq : sess.questions.length = qpt) :
    (submit st sessionId answers now).2.results
      = st.results
        ++ [⟨now, sess.surname, sess.name, sess.grp,
             grade sess.questions answers, qpt⟩]
    ∧ grade sess.questions answers ≤ qpt := by
  rw [submit_found h answers now]
  constructor
  · rw [db_insert_result, hq]
  · rw [← hq]
    exact grade_le_length _ _

/-- C8 witness: a concrete submission against a two-question session with
`QUESTIONS_PER_TEST = 2`. -/
theorem submit_result_score_bounds_witness :
    (st1.sessions "tok" = some sess1) ∧ (sess1.questions.length = 2)
    ∧ ((submit st1 "tok" ["b", "zzz"] 9).2.results
        = st1.results
          ++ [⟨9, sess1.surname, sess1.name, sess1.grp,
               grade sess1.questions ["b", "zzz"], 2⟩]
      ∧ grade sess1.questions ["b", "zzz"] ≤ 2) :=
  ⟨rfl, rfl, submit_result_score_bounds ["b", "zzz"] 9 rfl rfl⟩

/-- C9: for a token absent from the session registry, `grade_and_finish`
redirects to the start page and changes nothing: the whole state — in
particular the result store and the registry — is returned untouched. -/
theorem submit_unknown_token_noop {st : AppState} {sessionId : String}
    (h : st.sessions sessionId = none) (answers : List String) (now : Int) :
    submit st sessionId answers now = (Response.redirectHome, st)
    ∧ (submit st sessionId answers now).2.results = st.results
    ∧ (submit st sessionId answers now).2.sessions = st.sessions := by
  have he := submit_absent h answers now
  exact ⟨he, by rw [he], by rw [he]⟩

/-- C9 witness: submitting against an empty registry. -/
theorem submit_unknown_token_noop_witness :
    (st0.sessions "ghost" = none)
    ∧ (submit st0 "ghost" ["a", "b"] 6 = (Response.redirectHome, st0)
      ∧ (submit st0 "ghost" ["a", "b"] 6).2.results = st0.results
      ∧ (submit st0 "ghost" ["a", "b"] 6).2.sessions = st0.sessions) :=
  ⟨rfl, submit_unknown_token_noop rfl ["a", "b"] 6⟩

/-- C10: when the submitted answers list is longer than the session's
question count `n`, `grade_and_finish` ignores the surplus entries: the
score and the entire response and state are identical to those produced by
the first `n` entries alone. -/
theorem submit_ignores_surplus_answers {st : AppState} {sessionId : String}
    {sess : Session} {answers : List String} (now : Int)
    (h : st.sessions sessionId = some sess)
    (hlong : sess.questions.length < answers.length) :
    grade sess.questions answers
      = grade sess.questions (answers.take sess.questions.length)
    ∧ submit st sessionId answers now
        = submit st sessionId (answers.take sess.questions.length) now := by
  have hg := (grade_take sess.questions answers).symm
  refine ⟨hg, ?_⟩
  rw [submit_found h answers now,
    submit_found h (answers.take sess.questions.length) now, ← hg]

/-- C10 witness: four answers against a two-question session. -/
theorem submit_ignores_surplus_answers_witness :
    (st1.sessions "tok" = some sess1)
    ∧ (sess1.questions.length < (["b", "a", "c", "d"] : List String).length)
    ∧ (grade sess1.questions ["b", "a", "c", "d"]
        = grade sess1.questions
            ((["b", "a", "c", "d"] : List String).take sess1.questions.length)
      ∧ submit st1 "tok" ["b", "a", "c", "d"] 8
          = submit st1 "tok"
              ((["b", "a", "c", "d"] : List String).take sess1.questions.length) 8) :=
  ⟨rfl, by decide, submit_ignores_surplus_answers 8 rfl (by decide)⟩

end QuizWeb
